import Mathlib

/-!
Verification of the `developing-langgraph-js-agents` skill pack.

The repository is a documentation corpus: `SKILL.md` (intake, routing
table, workflow and template indexes), six markdown workflow runbooks,
reference documents, and three TypeScript agent templates
(`basic-agent.ts`, `rag-agent.ts`, `multi-agent.ts`).

This file gives a shallow embedding of the artifacts the claims are
about: the routing table and the document inventory are transcribed as
Lean lists of strings; the pure routing functions of the three
templates (`shouldContinue`, `routeFromSupervisor`, `routeAfterGrade`)
and the `callTools` node are translated into Lean functions; the graph
wiring (`addEdge` / `addConditionalEdges` calls) becomes a list of
edges.  JavaScript strings are Lean `String`, JS numbers appearing as
counters are `Int`, possibly-`undefined` fields are `Option`, and a
tool invocation that may throw is a function into `Except`.
-/

namespace LangGraphSkill

/-! ## Messages and tool calls (from `@langchain/core/messages` usage in the templates) -/

/-- A tool call carried by an AIMessage: `tool_calls` entries have a
`name` and an `id` (the fields the templates read). -/
structure ToolCall where
  name : String
  id : String
deriving DecidableEq

/-- A ToolMessage as constructed by `callTools`: `content` and `tool_call_id`. -/
structure ToolMessage where
  content : String
  tool_call_id : String
deriving DecidableEq

/-- The message kinds the template code distinguishes.  An `AIMessage`
has a `tool_calls` field that may be `undefined` (hence `Option`);
every other message kind is only tested negatively by
`AIMessage.isInstance`, so their payload is just their content. -/
inductive Msg where
  | ai (tool_calls : Option (List ToolCall))
  | human (content : String)
  | toolMsg (m : ToolMessage)
  | system (content : String)
deriving DecidableEq

/-! ## Graph wiring

`new StateGraph(S).addNode(...).addEdge(a, b).addConditionalEdges(src, f,
targets)` is embedded as the list of edges the builder calls register:
`Edge.direct a b` for `addEdge(a, b)` and `Edge.conditional src targets`
for `addConditionalEdges(src, f, targets)`.  `START` and `END` are the
frameworks reserved node names. -/

inductive Edge where
  | direct (src dst : String)
  | conditional (src : String) (targets : List String)
deriving DecidableEq

def startNode : String := "__start__"

def endNode : String := "__end__"

/-- Source node of an edge. -/
def Edge.source : Edge → String
  | .direct s _ => s
  | .conditional s _ => s

/-- The possible destinations of an edge. -/
def Edge.targets : Edge → List String
  | .direct _ d => [d]
  | .conditional _ ts => ts

/-- Whether the edge is a conditional edge. -/
def Edge.isCond : Edge → Bool
  | .direct _ _ => false
  | .conditional _ _ => true

/-! ## basic-agent template (`templates/basic-agent.ts`, embedded in SKILL.md doc) -/

/-- `shouldContinue` of the basic-agent template: `END` when the last
message is missing or not an AIMessage; `"tools"` when
`lastMessage.tool_calls?.length` is truthy (the list exists and is
non-empty); `END` otherwise. -/
def shouldContinue (messages : List Msg) : String :=
  match messages.getLast? with
  | some (Msg.ai tcs) =>
    match tcs with
    | some l => if 0 < l.length then "tools" else endNode
    | none => endNode
  | _ => endNode

/-- The edges registered by the basic-agent graph builder:
`.addEdge(START, "agent") .addConditionalEdges("agent", shouldContinue,
["tools", END]) .addEdge("tools", "agent")`. -/
def basicAgentEdges : List Edge :=
  [ Edge.direct startNode "agent",
    Edge.conditional "agent" ["tools", endNode],
    Edge.direct "tools" "agent" ]

/-! ### callTools (basic-agent node) -/

/-- A JS exception value: either an `Error` instance with a `message`,
or any other thrown value. -/
inductive JsErr where
  | errObj (message : String)
  | nonErr

/-- A tool as `callTools` uses it: `tool.invoke(toolCall)` either
returns a ToolMessage or throws. -/
def ToolFn : Type := ToolCall → Except JsErr ToolMessage

/-- `error instanceof Error ? error.message : "Unknown error"`. -/
def jsErrMessage : JsErr → String
  | JsErr.errObj m => m
  | JsErr.nonErr => "Unknown error"

/-- The body of the `for (const toolCall of ...)` loop in `callTools`:
unknown tool name pushes an `Unknown tool:` ToolMessage, a throwing
invocation pushes an `Error:` ToolMessage, a successful invocation
pushes the returned message. -/
def execToolCall (toolsByName : List (String × ToolFn)) (tc : ToolCall) : ToolMessage :=
  match List.lookup tc.name toolsByName with
  | none => { content := "Unknown tool: " ++ tc.name, tool_call_id := tc.id }
  | some t =>
    match t tc with
    | Except.ok r => r
    | Except.error e =>
      { content := "Error: " ++ jsErrMessage e, tool_call_id := tc.id }

/-- The loop of `callTools`: one push per element of `tool_calls`. -/
def callToolsLoop (toolsByName : List (String × ToolFn)) : List ToolCall → List ToolMessage
  | [] => []
  | tc :: rest => execToolCall toolsByName tc :: callToolsLoop toolsByName rest

/-- `callTools`: returns `{ messages: [] }` when the last message is
missing or not an AIMessage, otherwise iterates
`lastMessage.tool_calls ?? []`. -/
def callTools (toolsByName : List (String × ToolFn)) (messages : List Msg) : List ToolMessage :=
  match messages.getLast? with
  | some (Msg.ai tcs) => callToolsLoop toolsByName (tcs.getD [])
  | _ => []

/-! ## JS string helpers used by the routing functions -/

/-- `s.toLowerCase()` on the characters the templates compare (ASCII). -/
def jsToLower (s : String) : String :=
  String.mk (s.data.map Char.toLower)

/-- Whether `needle` occurs as a contiguous run inside `hay`
(`List.isPrefixOf` at each suffix). -/
def listIncludes (needle : List Char) : List Char → Bool
  | [] => needle.isEmpty
  | c :: rest => needle.isPrefixOf (c :: rest) || listIncludes needle rest

/-- `hay.includes(needle)` for JS strings. -/
def strIncludes (hay needle : String) : Bool :=
  listIncludes needle.data hay.data

/-- `s.startsWith(pre)` for JS strings. -/
def strStarts (s pre : String) : Bool :=
  pre.data.isPrefixOf s.data

/-- `s.endsWith(suf)` for JS strings. -/
def strEnds (s suf : String) : Bool :=
  suf.data.reverse.isPrefixOf s.data.reverse

/-! ## multi-agent template (`templates/multi-agent.ts`) -/

/-- The fields of `MultiAgentState` (from `Annotation.Root`):
`messages`, `task`, `currentAgent` (default `"supervisor"`),
`researchNotes` (concat reducer), `draft`, `iterations` (additive
reducer, default 0, a JS number used as a counter). -/
structure MultiAgentState where
  messages : List Msg
  task : String
  currentAgent : String
  researchNotes : List String
  draft : String
  iterations : Int

/-- `routeFromSupervisor`: lower-cases `currentAgent`, forces
`"finalize"` past the safety limit `iterations > 10`, then dispatches on
which worker keyword the decision string contains, defaulting to
`"finalize"`. -/
def routeFromSupervisor (state : MultiAgentState) : String :=
  let decision := jsToLower state.currentAgent
  if state.iterations > 10 then "finalize"
  else if strIncludes decision "finish" then "finalize"
  else if strIncludes decision "researcher" then "researcher"
  else if strIncludes decision "writer" then "writer"
  else "finalize"

/-- The edges registered by the multi-agent graph builder:
`.addEdge(START, "supervisor") .addConditionalEdges("supervisor",
routeFromSupervisor, ["researcher", "writer", "finalize"])
.addEdge("researcher", "supervisor") .addEdge("writer", "supervisor")
.addEdge("finalize", END)`. -/
def multiAgentEdges : List Edge :=
  [ Edge.direct startNode "supervisor",
    Edge.conditional "supervisor" ["researcher", "writer", "finalize"],
    Edge.direct "researcher" "supervisor",
    Edge.direct "writer" "supervisor",
    Edge.direct "finalize" endNode ]

/-! ## rag-agent template (`templates/rag-agent.ts`) -/

/-- A retrieved Document: the templates only read `pageContent`. -/
structure Document where
  pageContent : String
deriving DecidableEq

/-- The fields of `RAGState`: `messages`, `query`, `documents`
(replace-with-latest reducer), `generation`, `retryCount` (additive
reducer `(x, y) => x + y`, default 0). -/
structure RAGState where
  messages : List Msg
  query : String
  documents : List Document
  generation : String
  retryCount : Int

/-- The reducer of `RAGState.retryCount`: `(x, y) => x + y`. -/
def retryCountReducer (x y : Int) : Int := x + y

/-- The `retryCount` part of the update `rewriteQuery` returns:
`retryCount: 1`. -/
def rewriteQueryRetryDelta : Int := 1

/-- `routeAfterGrade`: `"generate"` when relevant documents remain,
`"generate"` when `retryCount >= 2`, otherwise `"rewrite"`. -/
def routeAfterGrade (state : RAGState) : String :=
  if state.documents.length > 0 then "generate"
  else if state.retryCount ≥ 2 then "generate"
  else "rewrite"

/-- The edges registered by the RAG graph builder:
`.addEdge(START, "retrieve") .addEdge("retrieve", "grade")
.addConditionalEdges("grade", routeAfterGrade, ["generate", "rewrite"])
.addEdge("rewrite", "retrieve") .addEdge("generate", END)`. -/
def ragAgentEdges : List Edge :=
  [ Edge.direct startNode "retrieve",
    Edge.direct "retrieve" "grade",
    Edge.conditional "grade" ["generate", "rewrite"],
    Edge.direct "rewrite" "retrieve",
    Edge.direct "generate" endNode ]

/-- The grade-to-rewrite loop of the RAG graph, abstracted over what
each retrieve+grade round leaves in `documents`: starting from a given
`retryCount`, each round routes via `routeAfterGrade`; `"generate"`
leaves the loop, `"rewrite"` applies the additive reducer to the
`retryCount: 1` update of `rewriteQuery` and loops.  Returns how many
times the `"rewrite"` edge is taken. -/
def ragRewritePasses (retry : Int) : List (List Document) → Nat
  | [] => 0
  | docs :: rest =>
    if routeAfterGrade ⟨[], "", docs, "", retry⟩ = "rewrite" then
      1 + ragRewritePasses (retryCountReducer retry rewriteQueryRetryDelta) rest
    else 0

/-! ## SKILL.md: intake, routing table, workflows index

The `<routing>` table of SKILL.md is transcribed row by row: each row
is the list of accepted responses (the numbered intake option and its
free-text synonyms) paired with the workflow file to read next
(`none` for option 7, whose cell is the instruction to clarify intent
instead of a file). -/

def routingRows : List (List String × Option String) :=
  [ (["1", "new", "create", "build", "start", "scaffold"],
      some "workflows/build-new-agent.md"),
    (["2", "add", "feature", "implement", "extend"],
      some "workflows/add-feature.md"),
    (["3", "audit", "review", "check", "assess", "evaluate"],
      some "workflows/audit-agent.md"),
    (["4", "debug", "fix", "broken", "error", "bug", "issue"],
      some "workflows/debug-agent.md"),
    (["5", "test", "tests", "testing", "coverage"],
      some "workflows/write-tests.md"),
    (["6", "optimize", "performance", "slow", "fast", "improve"],
      some "workflows/optimize-agent.md"),
    (["7", "other"], none) ]

/-- The workflow files named by the routing table. -/
def routedFiles : List String := routingRows.filterMap Prod.snd

/-- The `<workflows_index>` table of SKILL.md: file and purpose. -/
def workflowsIndex : List (String × String) :=
  [ ("build-new-agent.md", "Create a new LangGraph.js agent from scratch"),
    ("add-feature.md", "Add capabilities to an existing agent"),
    ("audit-agent.md", "Review architecture and identify issues"),
    ("debug-agent.md", "Find and fix agent bugs"),
    ("write-tests.md", "Test nodes, graphs, and integrations"),
    ("optimize-agent.md", "Improve performance and reduce latency") ]

/-- The title lines of the workflow runbook documents actually present
in the source tree (each is the `# Workflow: ...` heading of one
markdown document found in the repository). -/
def sourceWorkflowDocTitles : List String :=
  [ "Workflow: Build a New LangGraph.js Agent",
    "Workflow: Add a Feature to a LangGraph.js Agent",
    "Workflow: Audit a LangGraph.js Agent",
    "Workflow: Debug a LangGraph.js Agent",
    "Workflow: Write Tests for a LangGraph.js Agent",
    "Workflow: Optimize a LangGraph.js Agent" ]

/-- Which document title each routed workflow file carries in the
source tree. -/
def workflowFileTitle : List (String × String) :=
  [ ("workflows/build-new-agent.md", "Workflow: Build a New LangGraph.js Agent"),
    ("workflows/add-feature.md", "Workflow: Add a Feature to a LangGraph.js Agent"),
    ("workflows/audit-agent.md", "Workflow: Audit a LangGraph.js Agent"),
    ("workflows/debug-agent.md", "Workflow: Debug a LangGraph.js Agent"),
    ("workflows/write-tests.md", "Workflow: Write Tests for a LangGraph.js Agent"),
    ("workflows/optimize-agent.md", "Workflow: Optimize a LangGraph.js Agent") ]

/-- The six workflow categories the spec names, with the index file
covering each. -/
def categoryFiles : List (String × String) :=
  [ ("build", "build-new-agent.md"),
    ("add-feature", "add-feature.md"),
    ("audit", "audit-agent.md"),
    ("debug", "debug-agent.md"),
    ("test", "write-tests.md"),
    ("optimize", "optimize-agent.md") ]

/-! ## Template header comments

The opening `/** ... */` block comment of each template file,
transcribed line by line. -/

def basicAgentHeader : List String :=
  [ " * Basic ReAct Agent Template",
    " *",
    " * A minimal tool-calling agent using the Graph API.",
    " * Copy this file and customize for your use case." ]

def ragAgentHeader : List String :=
  [ " * RAG Agent Template",
    " *",
    " * Retrieval-Augmented Generation agent that:",
    " * 1. Retrieves relevant documents",
    " * 2. Grades them for relevance",
    " * 3. Generates answer or rewrites query" ]

def multiAgentHeader : List String :=
  [ " * Multi-Agent Template (Supervisor Pattern)",
    " *",
    " * A supervisor agent coordinates specialized worker agents:",
    " * - Supervisor: Routes tasks to appropriate workers",
    " * - Researcher: Gathers information",
    " * - Writer: Creates content" ]

/-- The header marks the file as a template: some line mentions
"Template". -/
def marksTemplate (header : List String) : Bool :=
  header.any (fun l => strIncludes l "Template")

/-- The header carries a copy-and-customize instruction: generously,
some line even mentions "copy" (case-insensitively). -/
def hasCopyInstruction (header : List String) : Bool :=
  header.any (fun l => strIncludes (jsToLower l) "copy")

/-! ## Claim theorems -/

/-- C1: every workflow file named in the routing table of SKILL.md
(`workflows/build-new-agent.md`, `workflows/add-feature.md`,
`workflows/audit-agent.md`, `workflows/debug-agent.md`,
`workflows/write-tests.md`, `workflows/optimize-agent.md`) has a
matching workflow document in the source tree. -/
theorem routing_table_files_exist :
    routedFiles =
      [ "workflows/build-new-agent.md", "workflows/add-feature.md",
        "workflows/audit-agent.md", "workflows/debug-agent.md",
        "workflows/write-tests.md", "workflows/optimize-agent.md" ] ∧
    routedFiles.all (fun f =>
      ((List.lookup f workflowFileTitle).map
        (fun t => sourceWorkflowDocTitles.contains t)).getD false) = true := by
  decide

/-- C2: the repository contains six workflow runbooks, one for each of
the categories build, add-feature, audit, debug, test and optimize, as
listed in SKILL.md's workflows index: the index has six entries, each
category is covered by a distinct index file, and each indexed file has
a matching workflow document in the source tree. -/
theorem six_workflow_runbooks :
    workflowsIndex.length = 6 ∧
    categoryFiles.map Prod.fst =
      ["build", "add-feature", "audit", "debug", "test", "optimize"] ∧
    categoryFiles.all (fun cf => (workflowsIndex.map Prod.fst).contains cf.2) = true ∧
    (categoryFiles.map Prod.snd).Nodup ∧
    workflowsIndex.all (fun wf =>
      ((List.lookup (String.append "workflows/" wf.1) workflowFileTitle).map
        (fun t => sourceWorkflowDocTitles.contains t)).getD false) = true := by
  decide

/-- C4: the multi-agent graph is a supervisor-routes-workers loop: the
only edge out of START goes to "supervisor", the only conditional edge
leaves "supervisor" with exactly the targets "researcher", "writer" and
"finalize", both workers have an unconditional edge back to
"supervisor", and "finalize" is the only node with an edge to END. -/
theorem multi_agent_supervisor_wiring :
    multiAgentEdges.filter (fun e => e.source == startNode) =
      [Edge.direct startNode "supervisor"] ∧
    multiAgentEdges.filter Edge.isCond =
      [Edge.conditional "supervisor" ["researcher", "writer", "finalize"]] ∧
    Edge.direct "researcher" "supervisor" ∈ multiAgentEdges ∧
    Edge.direct "writer" "supervisor" ∈ multiAgentEdges ∧
    multiAgentEdges.filter (fun e => e.targets.contains endNode) =
      [Edge.direct "finalize" endNode] := by
  decide

/-- C5: the RAG graph is a retrieval-grade-generate loop: START wires
to "retrieve", "retrieve" to "grade", the only conditional edge leaves
"grade" with exactly the targets "generate" and "rewrite", "rewrite"
wires back to "retrieve", and "generate" to END. -/
theorem rag_agent_wiring :
    Edge.direct startNode "retrieve" ∈ ragAgentEdges ∧
    Edge.direct "retrieve" "grade" ∈ ragAgentEdges ∧
    ragAgentEdges.filter Edge.isCond =
      [Edge.conditional "grade" ["generate", "rewrite"]] ∧
    Edge.direct "rewrite" "retrieve" ∈ ragAgentEdges ∧
    Edge.direct "generate" endNode ∈ ragAgentEdges := by
  decide

/-- C6: the routing table maps intents to workflow files: each numbered
option 1 through 6 appears among its rows accepted responses and is
assigned exactly one markdown file under `workflows/`; the listed
free-text synonyms ("build", "debug", "optimize") appear in their rows;
and only option 7 ("other") has no file assigned. -/
theorem routing_table_intake_mapping :
    routingRows.length = 7 ∧
    ((["1", "2", "3", "4", "5", "6"].zip routingRows).all (fun p =>
      p.2.1.contains p.1 &&
      (p.2.2.map (fun f =>
        strStarts f "workflows/" && strEnds f ".md")).getD false) = true) ∧
    ((routingRows.get? 0).map (fun r => r.1.contains "build")).getD false = true ∧
    ((routingRows.get? 3).map (fun r => r.1.contains "debug")).getD false = true ∧
    ((routingRows.get? 5).map (fun r => r.1.contains "optimize")).getD false = true ∧
    routingRows.get? 6 = some (["7", "other"], none) ∧
    (routingRows.filter (fun r => r.2.isNone)).length = 1 := by
  decide

/-- C7 counterexample: the claim that each of the three template
headers carries a "copy and customize" instruction fails — the
rag-agent and multi-agent header comments never even mention "copy". -/
theorem templates_copy_customize_counterexample :
    hasCopyInstruction ragAgentHeader = false ∧
    hasCopyInstruction multiAgentHeader = false := by
  decide

/-- C7 amended: all three template headers are explicitly marked as
templates, and the basic-agent header additionally carries the
"Copy this file and customize" instruction, which the rag-agent and
multi-agent headers lack. -/
theorem templates_marked_template_basic_copy :
    marksTemplate basicAgentHeader = true ∧
    marksTemplate ragAgentHeader = true ∧
    marksTemplate multiAgentHeader = true ∧
    basicAgentHeader.any (fun l => strIncludes l "Copy this file and customize") = true ∧
    hasCopyInstruction ragAgentHeader = false ∧
    hasCopyInstruction multiAgentHeader = false := by
  decide

/-! ### C3: basic-agent routing and wiring -/

/-- Helper: `shouldContinue` answers `"tools"` exactly when the last
message is an AIMessage with a non-empty `tool_calls` list. -/
lemma shouldContinue_tools_iff (msgs : List Msg) :
    shouldContinue msgs = "tools" ↔ ∃ l, msgs.getLast? = some (Msg.ai (some l)) ∧ l ≠ [] := by
  unfold shouldContinue
  split
  · rename_i tcs heq
    split
    · rename_i l
      split
      · rename_i hl
        constructor
        · intro _; exact ⟨l, heq, List.ne_nil_of_length_pos hl⟩
        · intro _; rfl
      · rename_i hl
        constructor
        · intro h; exact absurd h (by decide)
        · rintro ⟨l', hl', hne⟩
          rw [heq] at hl'
          simp only [Option.some.injEq, Msg.ai.injEq] at hl'
          subst hl'
          exact absurd (List.length_pos.mpr hne) hl
    · constructor
      · intro h; exact absurd h (by decide)
      · rintro ⟨l', hl', -⟩
        rw [heq] at hl'
        simp at hl'
  · rename_i hne
    constructor
    · intro h; exact absurd h (by decide)
    · rintro ⟨l', hl', -⟩
      exact (hne (some l') hl').elim

/-- Helper: `shouldContinue` only ever answers `"tools"` or `END`. -/
lemma shouldContinue_tools_or_end (msgs : List Msg) :
    shouldContinue msgs = "tools" ∨ shouldContinue msgs = endNode := by
  unfold shouldContinue
  split
  · split
    · split
      · exact Or.inl rfl
      · exact Or.inr rfl
    · exact Or.inr rfl
  · exact Or.inr rfl

/-- C3: the basic-agent template is a tool-calling loop:
`shouldContinue` returns `"tools"` iff the last message exists, is an
AIMessage and has a non-empty `tool_calls` list, and returns `END`
otherwise; and the graph wires START to `"agent"`, `"agent"`
conditionally to `"tools"` or `END`, and `"tools"` back to `"agent"`. -/
theorem basic_agent_tool_calling_loop :
    (∀ msgs : List Msg,
      shouldContinue msgs = "tools" ↔
        ∃ l, msgs.getLast? = some (Msg.ai (some l)) ∧ l ≠ []) ∧
    (∀ msgs : List Msg,
      shouldContinue msgs = "tools" ∨ shouldContinue msgs = endNode) ∧
    Edge.direct startNode "agent" ∈ basicAgentEdges ∧
    Edge.conditional "agent" ["tools", endNode] ∈ basicAgentEdges ∧
    Edge.direct "tools" "agent" ∈ basicAgentEdges :=
  ⟨shouldContinue_tools_iff, shouldContinue_tools_or_end, by decide, by decide, by decide⟩

/-- Witness for C3: a single AIMessage with one tool call routes to
`"tools"`. -/
theorem basic_agent_tool_calling_loop_witness :
    shouldContinue [Msg.ai (some [⟨"t", "i"⟩])] = "tools" :=
  (basic_agent_tool_calling_loop.1 [Msg.ai (some [⟨"t", "i"⟩])]).mpr
    ⟨[⟨"t", "i"⟩], rfl, by decide⟩

/-! ### C8: multi-agent routing totality and safety -/

/-- Helper: `routeFromSupervisor` always answers one of the three
declared conditional-edge targets. -/
lemma routeFromSupervisor_mem (s : MultiAgentState) :
    routeFromSupervisor s ∈ (["researcher", "writer", "finalize"] : List String) := by
  unfold routeFromSupervisor
  by_cases h1 : s.iterations > 10
  · simp [h1]
  · by_cases h2 : strIncludes (jsToLower s.currentAgent) "finish" = true <;>
    by_cases h3 : strIncludes (jsToLower s.currentAgent) "researcher" = true <;>
    by_cases h4 : strIncludes (jsToLower s.currentAgent) "writer" = true <;>
    simp [h1, h2, h3, h4]

/-- C8: `routeFromSupervisor` is total and safe: for every state it
returns one of the three declared conditional-edge targets; past the
safety limit `iterations > 10` it returns `"finalize"` regardless of
the decision string; and when the lower-cased `currentAgent` contains
none of "finish", "researcher" or "writer" it also returns
`"finalize"`. -/
theorem routeFromSupervisor_total_safe :
    Edge.conditional "supervisor" ["researcher", "writer", "finalize"] ∈ multiAgentEdges ∧
    ∀ s : MultiAgentState,
      routeFromSupervisor s ∈ (["researcher", "writer", "finalize"] : List String) ∧
      (s.iterations > 10 → routeFromSupervisor s = "finalize") ∧
      (strIncludes (jsToLower s.currentAgent) "finish" = false →
        strIncludes (jsToLower s.currentAgent) "researcher" = false →
        strIncludes (jsToLower s.currentAgent) "writer" = false →
        routeFromSupervisor s = "finalize") := by
  refine ⟨by decide, fun s => ⟨routeFromSupervisor_mem s, ?_, ?_⟩⟩
  · intro h
    unfold routeFromSupervisor
    rw [if_pos h]
  · intro h1 h2 h3
    unfold routeFromSupervisor
    by_cases h0 : s.iterations > 10
    · simp [h0]
    · simp [h0, h1, h2, h3]

/-- Witness for C8: a decision string naming no worker keyword routes
to `"finalize"`. -/
theorem routeFromSupervisor_total_safe_witness :
    routeFromSupervisor ⟨[], "", "deploy the ships", [], "", 0⟩ = "finalize" :=
  ((routeFromSupervisor_total_safe.2 ⟨[], "", "deploy the ships", [], "", 0⟩).2.2
    (by decide) (by decide) (by decide))

/-! ### C9: the RAG rewrite loop is bounded -/

/-- Helper: when `routeAfterGrade` answers `"rewrite"`, the graded
documents list is empty and `retryCount` is still below 2. -/
lemma routeAfterGrade_rewrite_inv (s : RAGState) (h : routeAfterGrade s = "rewrite") :
    s.documents = [] ∧ s.retryCount < 2 := by
  unfold routeAfterGrade at h
  split_ifs at h with h1 h2
  · exact absurd h (by decide)
  · exact absurd h (by decide)
  · refine ⟨List.eq_nil_of_length_eq_zero (by omega), by omega⟩

/-- Helper: starting from retry counter `r ≥ 0`, the grade loop takes
the rewrite edge at most `(2 - r).toNat` times. -/
lemma ragRewritePasses_le (rounds : List (List Document)) :
    ∀ r : Int, 0 ≤ r → ragRewritePasses r rounds ≤ (2 - r).toNat := by
  induction rounds with
  | nil => intro r _; simp [ragRewritePasses]
  | cons docs rest ih =>
    intro r hr
    unfold ragRewritePasses
    split_ifs with h
    · have hlt : r < 2 := (routeAfterGrade_rewrite_inv ⟨[], "", docs, "", r⟩ h).2
      simp only [retryCountReducer, rewriteQueryRetryDelta]
      have hrec := ih (r + 1) (by omega)
      omega
    · simp

/-- C9: the rewrite loop of the RAG template is bounded:
`routeAfterGrade` answers `"rewrite"` only when the documents list is
empty and `retryCount < 2`; the additive reducer applied to
rewriteQuery's `retryCount: 1` update strictly increases the counter;
hence, from the default `retryCount = 0`, the rewrite-to-retrieve
cycle is taken at most twice before routing to `"generate"`. -/
theorem rag_rewrite_loop_bounded :
    (∀ s : RAGState, routeAfterGrade s = "rewrite" → s.documents = [] ∧ s.retryCount < 2) ∧
    (∀ r : Int, r < retryCountReducer r rewriteQueryRetryDelta) ∧
    (∀ rounds : List (List Document), ragRewritePasses 0 rounds ≤ 2) := by
  refine ⟨routeAfterGrade_rewrite_inv, ?_, ?_⟩
  · intro r
    unfold retryCountReducer rewriteQueryRetryDelta
    omega
  · intro rounds
    have := ragRewritePasses_le rounds 0 (by omega)
    simpa using this

/-- Witness for C9: a graded state with no documents and one retry so
far routes to `"rewrite"` and satisfies the invariant. -/
theorem rag_rewrite_loop_bounded_witness :
    (⟨[], "", [], "", 1⟩ : RAGState).documents = [] ∧
      (⟨[], "", [], "", 1⟩ : RAGState).retryCount < 2 :=
  rag_rewrite_loop_bounded.1 ⟨[], "", [], "", 1⟩ (by decide)

/-! ### C10: callTools produces one ToolMessage per call and catches errors -/

/-- Helper: the loop of `callTools` processes entries pointwise. -/
lemma callToolsLoop_get? (tbn : List (String × ToolFn)) (l : List ToolCall) (i : Nat) :
    (callToolsLoop tbn l).get? i = (l.get? i).map (execToolCall tbn) := by
  induction l generalizing i with
  | nil => simp [callToolsLoop]
  | cons tc rest ih =>
    cases i with
    | zero => rfl
    | succ n => simpa [callToolsLoop] using ih n

/-- Helper: the loop of `callTools` pushes exactly one message per
tool call. -/
lemma callToolsLoop_length (tbn : List (String × ToolFn)) (l : List ToolCall) :
    (callToolsLoop tbn l).length = l.length := by
  induction l with
  | nil => rfl
  | cons tc rest ih => simp [callToolsLoop, ih]

/-- Helper: a call naming an unregistered tool yields the
`Unknown tool:` message with the matching id. -/
lemma execToolCall_unknown (tbn : List (String × ToolFn)) (tc : ToolCall)
    (h : List.lookup tc.name tbn = none) :
    execToolCall tbn tc =
      { content := "Unknown tool: " ++ tc.name, tool_call_id := tc.id } := by
  unfold execToolCall
  rw [h]

/-- Helper: a tool invocation that throws yields a message whose
content starts with `Error:` and whose id matches the call. -/
lemma execToolCall_thrown (tbn : List (String × ToolFn)) (tc : ToolCall)
    (t : ToolFn) (e : JsErr) (h : List.lookup tc.name tbn = some t)
    (he : t tc = Except.error e) :
    (∃ rest, (execToolCall tbn tc).content = "Error:" ++ rest) ∧
      (execToolCall tbn tc).tool_call_id = tc.id := by
  unfold execToolCall
  rw [h]
  split
  · rename_i heq
    exact Option.noConfusion heq
  · rename_i t2 heq
    injection heq with h4
    subst h4
    rw [he]
    refine ⟨⟨" " ++ jsErrMessage e, ?_⟩, rfl⟩
    show "Error: " ++ jsErrMessage e = "Error:" ++ (" " ++ jsErrMessage e)
    have h2 : ("Error: " : String) = "Error:" ++ " " := by decide
    rw [h2, String.append_assoc]

/-- C10: `callTools` never propagates an exception (it is a total
function whose error branch is the caught one) and produces exactly one
ToolMessage per tool call: when the last message is an AIMessage the
output has one entry per element of `tool_calls`, a call naming a tool
absent from `toolsByName` yields `Unknown tool: <name>` with the
matching `tool_call_id`, a throwing invocation yields a message whose
content starts with `Error:`; when the last message is missing or not
an AIMessage it returns an empty messages list. -/
theorem callTools_per_call (tbn : List (String × ToolFn)) (msgs : List Msg) :
    (∀ tcs, msgs.getLast? = some (Msg.ai tcs) →
      (callTools tbn msgs).length = (tcs.getD []).length ∧
      ∀ i tc, (tcs.getD []).get? i = some tc →
        (List.lookup tc.name tbn = none →
          (callTools tbn msgs).get? i =
            some { content := "Unknown tool: " ++ tc.name, tool_call_id := tc.id }) ∧
        (∀ t e, List.lookup tc.name tbn = some t → t tc = Except.error e →
          ∃ m, (callTools tbn msgs).get? i = some m ∧
            (∃ rest, m.content = "Error:" ++ rest) ∧ m.tool_call_id = tc.id)) ∧
    ((∀ tcs, msgs.getLast? ≠ some (Msg.ai tcs)) → callTools tbn msgs = []) := by
  constructor
  · intro tcs hm
    have hct : callTools tbn msgs = callToolsLoop tbn (tcs.getD []) := by
      unfold callTools
      rw [hm]
    constructor
    · rw [hct, callToolsLoop_length]
    · intro i tc htc
      have hget : (callTools tbn msgs).get? i = some (execToolCall tbn tc) := by
        rw [hct, callToolsLoop_get?, htc]
        rfl
      constructor
      · intro hnone
        rw [hget, execToolCall_unknown tbn tc hnone]
      · intro t e hsome he
        exact ⟨execToolCall tbn tc, hget, execToolCall_thrown tbn tc t e hsome he⟩
  · intro hne
    unfold callTools
    split
    · rename_i tcs heq
      exact absurd heq (hne tcs)
    · rfl

/-- Witness for C10: with no registered tools, a single call to an
unknown tool yields exactly the `Unknown tool:` message. -/
theorem callTools_per_call_witness :
    (callTools ([] : List (String × ToolFn)) [Msg.ai (some [⟨"nope", "id1"⟩])]).get? 0 =
      some { content := "Unknown tool: " ++ "nope", tool_call_id := "id1" } :=
  ((((callTools_per_call ([] : List (String × ToolFn)) [Msg.ai (some [⟨"nope", "id1"⟩])]).1
      (some [⟨"nope", "id1"⟩]) rfl).2 0 ⟨"nope", "id1"⟩ rfl).1 rfl)

end LangGraphSkill
